import Mathlib

/-!
Verification of the Flask chat application in `app.py` (K-HUB-project).

The application is embedded shallowly: each Flask route handler becomes a
pure Lean function over explicit state.  The state consists of
* the user store (`users.json`): a list of `User` records,
* the session cookie: an `Option SessionUser`,
* the per-user chat history store (`chat_history_<name>.json`): a list of
  `Chat` records.

File I/O (`load_users`/`save_users`, `load_history`/`save_history`) is
read-modify-write of the whole collection, so it is modelled by passing the
collection in and returning the (possibly) updated collection.  The external
Gemini completion call of `send` is nondeterministic from the program's point
of view, so its outcome is an explicit `Except String String` parameter
(`.ok text` for a successful reply, `.error e` for a raised exception with
message `e`).  The short id produced by `str(uuid.uuid4())[:8]` in
`create_new_chat` is likewise passed in as a parameter.
-/

/-- A record of `users.json`: `{'name': name, 'email': email, 'password': hashed_pw}`. -/
structure User where
  name : String
  email : String
  password : String
deriving DecidableEq

/-- The session payload stored by the app: `session['user'] = {'name': ..., 'email': ...}`. -/
structure SessionUser where
  name : String
  email : String
deriving DecidableEq

/-- One entry of a chat's message list: `{"user": user_input, "bot": bot_reply}`. -/
structure Message where
  user : String
  bot : String
deriving DecidableEq

/-- A record of a chat history file: `{"id": ..., "title": ..., "messages": [...]}`. -/
structure Chat where
  id : String
  title : String
  messages : List Message
deriving DecidableEq

/-- The visible outcome of a request: a redirect (`redirect(url_for(...))`),
a rendered template, or a plain inline text body (the auth error strings). -/
inductive Response where
  | redirect (target : String)
  | page (template : String)
  | inlineText (body : String)
deriving DecidableEq

/-- Modelled from the spec: werkzeug's `generate_password_hash` (external
library, not part of this repository's sources).  The spec describes it as a
salted one-way hash whose only property used by the app is the round trip
with `check_password_hash`; it is modelled as a deterministic tagging
function that validates exactly against the original password. -/
def generate_password_hash (password : String) : String :=
  "pbkdf2:" ++ password

/-- Modelled from the spec: werkzeug's `check_password_hash` (external
library).  Verifies a stored hash against a supplied password; with the model
of `generate_password_hash` above, `check_password_hash h p` holds exactly
when `h` was generated from `p`. -/
def check_password_hash (hashValue password : String) : Bool :=
  hashValue == generate_password_hash password

/-- `get_chat_by_id` (app.py:57-61): linear scan of the history, first chat
whose `id` equals `chat_id`, `None` if absent. -/
def get_chat_by_id (history : List Chat) (chat_id : String) : Option Chat :=
  history.find? (fun chat => chat.id == chat_id)

/-- `create_new_chat` (app.py:63-69): appends `{"id": chat_id, "title": "New
Chat", "messages": []}` to the history, persists, returns the id.  The id
`str(uuid.uuid4())[:8]` is supplied as the parameter `chat_id`. -/
def create_new_chat (history : List Chat) (chat_id : String) : List Chat × String :=
  (history ++ [{ id := chat_id, title := "New Chat", messages := [] }], chat_id)

/-- The POST branch of `signup` (app.py:72-89): lowercases the email, fails
with an inline error if any stored user's email equals it verbatim,
otherwise appends the new user with hashed password, establishes the
session and redirects home.  Returns (user store, session, response). -/
def signup (users : List User) (sess : Option SessionUser)
    (name email password : String) : List User × Option SessionUser × Response :=
  let email := email.toLower
  if users.any (fun u => u.email == email) then
    (users, sess, .inlineText "⚠️ Email already registered.")
  else
    let hashed_pw := generate_password_hash password
    (users ++ [{ name := name, email := email, password := hashed_pw }],
     some { name := name, email := email },
     .redirect "home")

/-- The POST branch of `login` (app.py:93-105): lowercases the email, scans
users for the first with `user['email'].lower() == email` whose stored hash
verifies against the password; on a hit establishes the session and
redirects home, otherwise returns the inline error.  Returns
(session, response); the user store is never modified by `login`. -/
def login (users : List User) (sess : Option SessionUser)
    (email password : String) : Option SessionUser × Response :=
  let email := email.toLower
  match users.find? (fun user =>
      user.email.toLower == email && check_password_hash user.password password) with
  | some user => (some { name := user.name, email := user.email }, .redirect "home")
  | none => (sess, .inlineText "⚠️ Invalid email or password.")

/-- `home` (app.py:115-125): unauthenticated callers are redirected to
signup; otherwise redirect to the last chat of the history, creating one
first when the history is empty.  `freshId` is the uuid consumed if
`create_new_chat` runs. -/
def home (sess : Option SessionUser) (history : List Chat) (freshId : String) :
    List Chat × Response :=
  match sess with
  | none => (history, .redirect "signup")
  | some _ =>
    match history.getLast? with
    | some chat => (history, .redirect ("chat/" ++ chat.id))
    | none =>
      let r := create_new_chat history freshId
      (r.1, .redirect ("chat/" ++ r.2))

/-- `chat` (app.py:127-136): unauthenticated callers are redirected to
signup; a missing chat id redirects home; otherwise the chat view is
rendered.  The route reads but never writes the stores. -/
def chatView (sess : Option SessionUser) (history : List Chat) (chat_id : String) :
    Response :=
  match sess with
  | none => .redirect "signup"
  | some _ =>
    match get_chat_by_id history chat_id with
    | none => .redirect "home"
    | some _ => .page "index.html"

/-- The bot reply computed by `send` (app.py:144-148): the stripped text of a
successful completion, or `"⚠️ Error: " + str(e)` when the call raised. -/
def bot_reply_of (outcome : Except String String) : String :=
  match outcome with
  | .ok text => text.trim
  | .error e => "⚠️ Error: " ++ e

/-- The title derivation of `send` (app.py:155):
`user_input[:20] + "..." if len(user_input) > 20 else user_input`. -/
def derive_title (user_input : String) : String :=
  if user_input.length > 20 then user_input.take 20 ++ "..." else user_input

/-- The mutation `send` performs on the matched chat (app.py:153-155):
append the message pair, then derive the title if it is still the default. -/
def update_chat (chat : Chat) (user_input bot_reply : String) : Chat :=
  let chat := { chat with messages := chat.messages ++ [{ user := user_input, bot := bot_reply }] }
  if chat.title == "New Chat" then { chat with title := derive_title user_input } else chat

/-- The loop of `send` (app.py:151-156): update the first chat whose id
matches (`break` stops after it); chats without a match are untouched. -/
def append_to_chat (history : List Chat) (chat_id user_input bot_reply : String) : List Chat :=
  match history with
  | [] => []
  | chat :: rest =>
    if chat.id == chat_id then update_chat chat user_input bot_reply :: rest
    else chat :: append_to_chat rest chat_id user_input bot_reply

/-- `send` (app.py:138-158): unauthenticated callers are redirected to
signup with untouched state; otherwise the completion outcome is turned into
a bot reply, the first matching chat is updated, the history persisted and
the caller redirected back to the chat view.  Exceptions from the service
are caught inside the handler (`try/except`), so every outcome yields a
normal response. -/
def send (sess : Option SessionUser) (history : List Chat) (chat_id : String)
    (user_input : String) (outcome : Except String String) : List Chat × Response :=
  match sess with
  | none => (history, .redirect "signup")
  | some _ =>
    let bot_reply := bot_reply_of outcome
    (append_to_chat history chat_id user_input bot_reply, .redirect ("chat/" ++ chat_id))

/-- `new_chat` (app.py:160-166): unauthenticated callers are redirected to
signup; otherwise a chat is created and the caller redirected to it. -/
def new_chat (sess : Option SessionUser) (history : List Chat) (freshId : String) :
    List Chat × Response :=
  match sess with
  | none => (history, .redirect "signup")
  | some _ =>
    let r := create_new_chat history freshId
    (r.1, .redirect ("chat/" ++ r.2))

/-- `delete_chat` (app.py:168-180): unauthenticated callers are redirected
to signup; otherwise every chat with the given id is filtered out, the
history persisted, and the caller redirected to the last remaining chat, or
to home when none remain. -/
def delete_chat (sess : Option SessionUser) (history : List Chat) (chat_id : String) :
    List Chat × Response :=
  match sess with
  | none => (history, .redirect "signup")
  | some _ =>
    let history := history.filter (fun chat => chat.id != chat_id)
    match history.getLast? with
    | some chat => (history, .redirect ("chat/" ++ chat.id))
    | none => (history, .redirect "home")

/-- The success condition of `login`: some stored user's email matches the
supplied one case-insensitively and that user's stored hash verifies
against the supplied password. -/
def loginOk (users : List User) (email password : String) : Prop :=
  ∃ u ∈ users, u.email.toLower = email.toLower ∧ check_password_hash u.password password = true

/-- C8: for every chat-affecting route (home, chat view, send, new chat,
delete), a request without a `'user'` session entry is answered by a
redirect to signup and the chat history store is returned unchanged (none
of these routes touches the user store at all, as their signatures show). -/
theorem unauthenticated_routes_redirect_to_signup (history : List Chat)
    (chat_id user_input freshId : String) (outcome : Except String String) :
    home none history freshId = (history, Response.redirect "signup")
    ∧ chatView none history chat_id = Response.redirect "signup"
    ∧ send none history chat_id user_input outcome = (history, Response.redirect "signup")
    ∧ new_chat none history freshId = (history, Response.redirect "signup")
    ∧ delete_chat none history chat_id = (history, Response.redirect "signup") :=
  ⟨rfl, rfl, rfl, rfl, rfl⟩

/-! ### Helper lemmas -/

theorem char_toNat_ofNat_of_valid (n : Nat) (h : n.isValidChar) :
    (Char.ofNat n).toNat = n := by
  rw [Char.ofNat, dif_pos h]
  rfl

theorem char_toLower_idem (c : Char) : c.toLower.toLower = c.toLower := by
  unfold Char.toLower
  by_cases h : c.toNat ≥ 65 ∧ c.toNat ≤ 90
  · rw [if_pos h]
    have hv : (c.toNat + 32).isValidChar := Or.inl (by omega)
    have ht : (Char.ofNat (c.toNat + 32)).toNat = c.toNat + 32 :=
      char_toNat_ofNat_of_valid _ hv
    rw [if_neg]
    rw [ht]
    omega
  · rw [if_neg h, if_neg h]

theorem string_toLower_idem (s : String) : s.toLower.toLower = s.toLower := by
  simp only [String.toLower, String.map_eq, List.map_map]
  have h : Char.toLower ∘ Char.toLower = Char.toLower := funext char_toLower_idem
  rw [h]

theorem string_toLower_data (s : String) :
    s.toLower = String.mk (s.data.map Char.toLower) := by
  rw [String.toLower, String.map_eq]

theorem login_of_not_loginOk (users : List User) (sess : Option SessionUser)
    (email password : String) (h : ¬ loginOk users email password) :
    login users sess email password = (sess, .inlineText "⚠️ Invalid email or password.") := by
  have hf : users.find?
      (fun user => user.email.toLower == email.toLower
        && check_password_hash user.password password) = none := by
    rw [List.find?_eq_none]
    intro u hu
    intro hp
    apply h
    refine ⟨u, hu, ?_⟩
    simpa using hp
  simp [login, hf]

theorem login_of_loginOk (users : List User) (sess : Option SessionUser)
    (email password : String) (h : loginOk users email password) :
    ∃ u ∈ users, u.email.toLower = email.toLower
      ∧ check_password_hash u.password password = true
      ∧ login users sess email password
          = (some { name := u.name, email := u.email }, .redirect "home") := by
  have hs : (users.find?
      (fun user => user.email.toLower == email.toLower
        && check_password_hash user.password password)).isSome := by
    rw [List.find?_isSome]
    obtain ⟨u, hu, h1, h2⟩ := h
    exact ⟨u, hu, by simp [h1, h2]⟩
  obtain ⟨u, hf⟩ := Option.isSome_iff_exists.mp hs
  have hmem := List.mem_of_find?_eq_some hf
  have hp := List.find?_some hf
  simp only [Bool.and_eq_true, beq_iff_eq] at hp
  exact ⟨u, hmem, hp.1, hp.2, by simp [login, hf]⟩

theorem signup_of_present (users : List User) (sess : Option SessionUser)
    (name email password : String) (h : ∃ u ∈ users, u.email = email.toLower) :
    signup users sess name email password
      = (users, sess, .inlineText "⚠️ Email already registered.") := by
  have ha : users.any (fun u => u.email == email.toLower) = true := by
    rw [List.any_eq_true]
    obtain ⟨u, hu, he⟩ := h
    exact ⟨u, hu, by simp [he]⟩
  simp [signup, ha]

theorem signup_of_absent (users : List User) (sess : Option SessionUser)
    (name email password : String) (h : ∀ u ∈ users, u.email ≠ email.toLower) :
    signup users sess name email password
      = (users ++ [{ name := name, email := email.toLower,
                     password := generate_password_hash password }],
         some { name := name, email := email.toLower },
         .redirect "home") := by
  have ha : users.any (fun u => u.email == email.toLower) = false := by
    rw [Bool.eq_false_iff]
    intro hc
    rw [List.any_eq_true] at hc
    obtain ⟨u, hu, he⟩ := hc
    exact h u hu (by simpa using he)
  simp [signup, ha]

theorem update_chat_id (chat : Chat) (u b : String) :
    (update_chat chat u b).id = chat.id := by
  simp only [update_chat]
  split <;> rfl

theorem update_chat_messages (chat : Chat) (u b : String) :
    (update_chat chat u b).messages = chat.messages ++ [{ user := u, bot := b }] := by
  simp only [update_chat]
  split <;> rfl

theorem update_chat_title_default (chat : Chat) (u b : String) (h : chat.title = "New Chat") :
    (update_chat chat u b).title = derive_title u := by
  simp only [update_chat]
  rw [if_pos (by simpa using h)]

theorem update_chat_title_kept (chat : Chat) (u b : String) (h : chat.title ≠ "New Chat") :
    (update_chat chat u b).title = chat.title := by
  simp only [update_chat]
  rw [if_neg (by simpa using h)]

theorem get_append_to_chat (history : List Chat) (cid u b : String) :
    get_chat_by_id (append_to_chat history cid u b) cid
      = (get_chat_by_id history cid).map (fun chat => update_chat chat u b) := by
  induction history with
  | nil => rfl
  | cons chat rest ih =>
    by_cases h : (chat.id == cid) = true
    · have hup : ((update_chat chat u b).id == cid) = true := by
        rw [update_chat_id]; exact h
      simp [append_to_chat, get_chat_by_id, h, hup]
    · have h' : (chat.id == cid) = false := by simpa using h
      simp only [append_to_chat, h', Bool.false_eq_true, if_false]
      simp only [get_chat_by_id] at ih ⊢
      rw [List.find?_cons_of_neg _ (by simp [h']), List.find?_cons_of_neg _ (by simp [h'])]
      exact ih

theorem append_to_chat_of_absent (history : List Chat) (cid u b : String)
    (h : ∀ chat ∈ history, chat.id ≠ cid) :
    append_to_chat history cid u b = history := by
  induction history with
  | nil => rfl
  | cons chat rest ih =>
    have hc : (chat.id == cid) = false := by
      simpa using h chat (List.mem_cons_self chat rest)
    simp only [append_to_chat, hc, Bool.false_eq_true, if_false]
    rw [ih (fun x hx => h x (List.mem_cons_of_mem chat hx))]

/-! ### Claim theorems -/

/-- C1: login succeeds (establishes a session and redirects home) if and only
if some stored user's email matches the supplied email case-insensitively and
that user's stored password hash verifies against the supplied password;
otherwise login returns the inline error and establishes no session. -/
theorem login_succeeds_iff (users : List User) (sess : Option SessionUser)
    (email password : String) :
    ((login users sess email password).2 = Response.redirect "home"
      ↔ loginOk users email password)
    ∧ (¬ loginOk users email password →
        (login users sess email password).1 = sess
        ∧ (login users sess email password).2
            = Response.inlineText "⚠️ Invalid email or password.")
    ∧ (loginOk users email password →
        ∃ u ∈ users, u.email.toLower = email.toLower
          ∧ check_password_hash u.password password = true
          ∧ (login users sess email password).1
              = some { name := u.name, email := u.email }) := by
  by_cases h : loginOk users email password
  · obtain ⟨u, hu, h1, h2, hl⟩ := login_of_loginOk users sess email password h
    rw [hl]
    exact ⟨⟨fun _ => h, fun _ => rfl⟩, fun hn => absurd h hn,
      fun _ => ⟨u, hu, h1, h2, rfl⟩⟩
  · rw [login_of_not_loginOk users sess email password h]
    exact ⟨⟨fun hc => (nomatch hc), fun hc => absurd hc h⟩,
      fun _ => ⟨rfl, rfl⟩, fun hc => absurd hc h⟩

/-- Witness for C1 at a concrete store: the user registered with lowercase
email `a@b.com` logs in with `A@B.COM` and the matching password. -/
theorem login_succeeds_iff_witness :
    (login [{ name := "Alice", email := "a@b.com",
              password := generate_password_hash "pw" }] none "A@B.COM" "pw").2
      = Response.redirect "home" :=
  (login_succeeds_iff [{ name := "Alice", email := "a@b.com",
                         password := generate_password_hash "pw" }] none "A@B.COM" "pw").1.mpr
    ⟨{ name := "Alice", email := "a@b.com", password := generate_password_hash "pw" },
      by decide, by simp only [string_toLower_data]; decide, by decide⟩

/-- C9: a failing login with an email that is present in the store (wrong
password) and a failing login with an absent email produce the same visible
response: the same inline error text, never a redirect, and neither
establishes a session, so the response does not reveal whether the email
exists. -/
theorem login_failures_indistinguishable (users : List User)
    (s1 s2 : Option SessionUser) (e1 p1 e2 p2 : String)
    (_hpresent : ∃ u ∈ users, u.email.toLower = e1.toLower)
    (hfail : ¬ loginOk users e1 p1)
    (habsent : ∀ u ∈ users, u.email.toLower ≠ e2.toLower) :
    (login users s1 e1 p1).2 = (login users s2 e2 p2).2
    ∧ (login users s1 e1 p1).2 = Response.inlineText "⚠️ Invalid email or password."
    ∧ (∀ t, (login users s1 e1 p1).2 ≠ Response.redirect t)
    ∧ (login users s1 e1 p1).1 = s1
    ∧ (login users s2 e2 p2).1 = s2 := by
  have hfail2 : ¬ loginOk users e2 p2 := by
    rintro ⟨u, hu, h1, _⟩
    exact habsent u hu h1
  rw [login_of_not_loginOk users s1 e1 p1 hfail,
    login_of_not_loginOk users s2 e2 p2 hfail2]
  exact ⟨rfl, rfl, fun t hc => (nomatch hc), rfl, rfl⟩

/-- Witness for C9: one store, a wrong-password attempt on the registered
email and an attempt on an unknown email. -/
theorem login_failures_indistinguishable_witness :
    (login [{ name := "Alice", email := "a@b.com",
              password := generate_password_hash "pw" }] none "a@b.com" "wrong").2
      = (login [{ name := "Alice", email := "a@b.com",
                  password := generate_password_hash "pw" }] none "z@b.com" "pw").2 :=
  (login_failures_indistinguishable
    [{ name := "Alice", email := "a@b.com", password := generate_password_hash "pw" }]
    none none "a@b.com" "wrong" "z@b.com" "pw"
    ⟨{ name := "Alice", email := "a@b.com", password := generate_password_hash "pw" },
      by decide, rfl⟩
    (by
      rintro ⟨u, hu, h1, h2⟩
      simp only [List.mem_singleton] at hu
      subst hu
      exact absurd h2 (by decide))
    (by
      intro u hu
      simp only [List.mem_singleton] at hu
      subst hu
      simp only [string_toLower_data]
      decide)).1

/-- C2 counterexample: the store holds a user whose stored email `A@b.com`
is not lowercase; signing up with `a@b.com` — the same email
case-insensitively — is not rejected: the duplicate check (app.py:81)
compares the lowercased input against the stored value verbatim, so the
signup appends a user and answers with a redirect, not the error. -/
theorem signup_case_insensitive_dup_counterexample :
    "A@b.com".toLower = "a@b.com".toLower
    ∧ (signup [{ name := "Old", email := "A@b.com",
                 password := generate_password_hash "x" }] none "New" "a@b.com" "y").1
        ≠ [{ name := "Old", email := "A@b.com", password := generate_password_hash "x" }]
    ∧ (signup [{ name := "Old", email := "A@b.com",
                 password := generate_password_hash "x" }] none "New" "a@b.com" "y").2.2
        ≠ Response.inlineText "⚠️ Email already registered." := by
  have habs : ∀ u ∈ [({ name := "Old", email := "A@b.com", password := generate_password_hash "x" } : User)], u.email ≠ ("a@b.com" : String).toLower := by
    intro u hu
    simp only [List.mem_singleton] at hu
    subst hu
    simp only [string_toLower_data]
    decide
  have hs := signup_of_absent [{ name := "Old", email := "A@b.com", password := generate_password_hash "x" }] none "New" "a@b.com" "y" habs
  refine ⟨by simp only [string_toLower_data]; decide, ?_, ?_⟩
  · rw [hs]
    intro hc
    have hlen := congrArg List.length hc
    simp at hlen
  · rw [hs]
    intro hc
    exact nomatch hc

/-- C2 (amended): a signup whose lowercased email is stored verbatim for
some existing user — which is how `signup` itself stores every email, so it
covers every store the app builds on its own — fails with the inline
error and leaves the user store and session unmodified. -/
theorem signup_duplicate_rejected (users : List User) (sess : Option SessionUser)
    (name email password : String)
    (h : ∃ u ∈ users, u.email = email.toLower) :
    (signup users sess name email password).1 = users
    ∧ (signup users sess name email password).2.1 = sess
    ∧ (signup users sess name email password).2.2
        = Response.inlineText "⚠️ Email already registered." := by
  rw [signup_of_present users sess name email password h]
  exact ⟨rfl, rfl, rfl⟩

/-- Witness for C2 (amended): a duplicate signup against a store holding the
lowercased form of the same email leaves the store unchanged. -/
theorem signup_duplicate_rejected_witness :
    (signup [{ name := "Old", email := "a@b.com",
               password := generate_password_hash "x" }] none "New" "A@B.com" "y").1
      = [{ name := "Old", email := "a@b.com", password := generate_password_hash "x" }] :=
  (signup_duplicate_rejected
    [{ name := "Old", email := "a@b.com", password := generate_password_hash "x" }]
    none "New" "A@B.com" "y"
    ⟨{ name := "Old", email := "a@b.com", password := generate_password_hash "x" },
      by decide, by simp only [string_toLower_data]; decide⟩).1

/-- C6: a signup whose email is not already present (the duplicate check of
app.py:80-82 finds no verbatim match for the lowercased email) grows the
user store by exactly one, the password-hash round trip holds, and a
subsequent login with the same email and password succeeds (redirects
home). -/
theorem signup_then_login (users : List User) (sess : Option SessionUser)
    (name email password : String)
    (h : ∀ u ∈ users, u.email ≠ email.toLower) :
    (signup users sess name email password).1.length = users.length + 1
    ∧ check_password_hash (generate_password_hash password) password = true
    ∧ (login (signup users sess name email password).1 none email password).2
        = Response.redirect "home" := by
  have hs := signup_of_absent users sess name email password h
  have h1 : (signup users sess name email password).1 = users ++ [{ name := name, email := email.toLower, password := generate_password_hash password }] := by
    rw [hs]
  have hrt : check_password_hash (generate_password_hash password) password = true := by
    simp [check_password_hash]
  refine ⟨by rw [h1]; simp, hrt, ?_⟩
  rw [h1]
  have hok : loginOk (users ++ [{ name := name, email := email.toLower, password := generate_password_hash password }]) email password := by
    refine ⟨{ name := name, email := email.toLower, password := generate_password_hash password }, by simp, ?_, hrt⟩
    exact string_toLower_idem email
  obtain ⟨u, _, _, _, hl⟩ := login_of_loginOk _ none email password hok
  rw [hl]

/-- Witness for C6: signing up on an empty store and logging back in. -/
theorem signup_then_login_witness :
    (login (signup [] none "N" "E@x.com" "pw").1 none "E@x.com" "pw").2
      = Response.redirect "home" :=
  (signup_then_login [] none "N" "E@x.com" "pw"
    (by intro u hu; exact absurd hu (List.not_mem_nil u))).2.2

/-- C7: creating a chat with a fresh id (the spec's "short unique id": the
generated uuid prefix collides with no existing chat id) and immediately
fetching it by the returned id yields a chat titled "New Chat" with an empty
message list; the new chat is appended at the end of the history. -/
theorem create_then_get (history : List Chat) (freshId : String)
    (h : ∀ chat ∈ history, chat.id ≠ freshId) :
    get_chat_by_id (create_new_chat history freshId).1 (create_new_chat history freshId).2
      = some { id := freshId, title := "New Chat", messages := [] }
    ∧ (create_new_chat history freshId).1
      = history ++ [{ id := freshId, title := "New Chat", messages := [] }] := by
  refine ⟨?_, rfl⟩
  show get_chat_by_id (history ++ [{ id := freshId, title := "New Chat", messages := [] }]) freshId = _
  unfold get_chat_by_id
  rw [List.find?_append]
  have hn : history.find? (fun chat => chat.id == freshId) = none := by
    rw [List.find?_eq_none]
    intro x hx
    simp [h x hx]
  rw [hn]
  simp

/-- Witness for C7 on the empty history. -/
theorem create_then_get_witness :
    get_chat_by_id (create_new_chat [] "ab12cd34").1 (create_new_chat [] "ab12cd34").2
      = some { id := "ab12cd34", title := "New Chat", messages := [] } :=
  (create_then_get [] "ab12cd34" (by intro c hc; exact absurd hc (List.not_mem_nil c))).1

/-- C10: a send whose chat id matches no chat of the logged-in user's
history persists the history exactly as it was: no message appended, no
title changed, no chat created. -/
theorem send_unknown_id_frame (s : SessionUser) (history : List Chat)
    (chat_id user_input : String) (outcome : Except String String)
    (h : ∀ chat ∈ history, chat.id ≠ chat_id) :
    (send (some s) history chat_id user_input outcome).1 = history := by
  show append_to_chat history chat_id user_input (bot_reply_of outcome) = history
  exact append_to_chat_of_absent history chat_id user_input (bot_reply_of outcome) h

/-- Witness for C10: a send against an id absent from a one-chat history. -/
theorem send_unknown_id_frame_witness :
    (send (some { name := "u", email := "e" }) [{ id := "c1", title := "T", messages := [] }] "zz" "hi" (Except.error "boom")).1
      = [{ id := "c1", title := "T", messages := [] }] :=
  send_unknown_id_frame { name := "u", email := "e" }
    [{ id := "c1", title := "T", messages := [] }] "zz" "hi" (Except.error "boom")
    (by intro c hc; simp only [List.mem_singleton] at hc; subst hc; decide)

/-- C4: when the completion call raises with message `err`, a send to an
existing chat still appends exactly one message pair — the user text paired
with a bot text equal to `"⚠️ Error: "` followed by `err` — and the handler
answers with the usual redirect back to the chat view: the exception is
caught inside the handler (app.py:147-148) and never propagates. -/
theorem send_failure_appends_error_pair (s : SessionUser) (history : List Chat)
    (chat_id user_input err : String) (c : Chat)
    (hc : get_chat_by_id history chat_id = some c) :
    (get_chat_by_id (send (some s) history chat_id user_input (Except.error err)).1 chat_id).map Chat.messages
      = some (c.messages ++ [{ user := user_input, bot := "⚠️ Error: " ++ err }])
    ∧ (send (some s) history chat_id user_input (Except.error err)).2
      = Response.redirect ("chat/" ++ chat_id) := by
  constructor
  · show (get_chat_by_id (append_to_chat history chat_id user_input (bot_reply_of (Except.error err))) chat_id).map Chat.messages = _
    rw [get_append_to_chat, hc]
    simp [update_chat_messages, bot_reply_of]
  · rfl

/-- Witness for C4: a failing completion call on a one-chat history. -/
theorem send_failure_appends_error_pair_witness :
    (get_chat_by_id (send (some { name := "u", email := "e" }) [{ id := "c1", title := "T", messages := [] }] "c1" "hi" (Except.error "boom")).1 "c1").map Chat.messages
      = some (([] : List Message) ++ [{ user := "hi", bot := "⚠️ Error: " ++ "boom" }]) :=
  (send_failure_appends_error_pair { name := "u", email := "e" }
    [{ id := "c1", title := "T", messages := [] }] "c1" "hi" "boom"
    { id := "c1", title := "T", messages := [] } rfl).1

/-- C5: deleting the only chat of a one-chat history empties the history and
redirects home, and the following home visit creates exactly one fresh chat
titled "New Chat" with no messages and redirects to it. -/
theorem delete_only_chat_then_home (s : SessionUser) (c : Chat) (freshId : String) :
    (delete_chat (some s) [c] c.id).1 = []
    ∧ (delete_chat (some s) [c] c.id).2 = Response.redirect "home"
    ∧ (home (some s) (delete_chat (some s) [c] c.id).1 freshId).1
        = [{ id := freshId, title := "New Chat", messages := [] }]
    ∧ (home (some s) (delete_chat (some s) [c] c.id).1 freshId).2
        = Response.redirect ("chat/" ++ freshId) := by
  have h1 : delete_chat (some s) [c] c.id = ([], Response.redirect "home") := by
    simp [delete_chat]
  rw [h1]
  exact ⟨rfl, rfl, rfl, rfl⟩

/-- C3 counterexample: if the first message sent to a default-titled chat is
itself the literal string "New Chat", the title is set to "New Chat" again,
so the guard at app.py:154 fires once more and the next send re-derives the
title — here to "Second" — contradicting the claim that no subsequent send
re-derives a title once a first send has set it. -/
theorem title_rederived_counterexample :
    (get_chat_by_id (send (some { name := "u", email := "e" }) [{ id := "c1", title := "New Chat", messages := [] }] "c1" "New Chat" (Except.error "x")).1 "c1").map Chat.title
      = some "New Chat"
    ∧ (get_chat_by_id (send (some { name := "u", email := "e" }) (send (some { name := "u", email := "e" }) [{ id := "c1", title := "New Chat", messages := [] }] "c1" "New Chat" (Except.error "x")).1 "c1" "Second" (Except.error "x")).1 "c1").map Chat.title
      = some "Second" := by
  decide

/-- C3 (amended): for the chat fetched under `chat_id`: a send while the
title is still the default "New Chat" sets the title to exactly the message
when it has at most 20 characters, and to its first 20 characters followed
by "..." when longer; a send to a chat whose title already differs from
"New Chat" never changes the title — so the title is never re-derived once
set, except when the first message was itself literally "New Chat". -/
theorem title_derivation (s : SessionUser) (history : List Chat)
    (chat_id user_input : String) (outcome : Except String String) (c : Chat)
    (hc : get_chat_by_id history chat_id = some c) :
    (c.title = "New Chat" → user_input.length ≤ 20 →
      (get_chat_by_id (send (some s) history chat_id user_input outcome).1 chat_id).map Chat.title
        = some user_input)
    ∧ (c.title = "New Chat" → user_input.length > 20 →
      (get_chat_by_id (send (some s) history chat_id user_input outcome).1 chat_id).map Chat.title
        = some (user_input.take 20 ++ "..."))
    ∧ (c.title ≠ "New Chat" →
      (get_chat_by_id (send (some s) history chat_id user_input outcome).1 chat_id).map Chat.title
        = some c.title) := by
  have hg : get_chat_by_id (send (some s) history chat_id user_input outcome).1 chat_id
      = some (update_chat c user_input (bot_reply_of outcome)) := by
    show get_chat_by_id (append_to_chat history chat_id user_input (bot_reply_of outcome)) chat_id = _
    rw [get_append_to_chat, hc]
    rfl
  rw [hg]
  refine ⟨?_, ?_, ?_⟩
  · intro ht hlen
    simp only [Option.map_some']
    rw [update_chat_title_default c user_input (bot_reply_of outcome) ht]
    unfold derive_title
    rw [if_neg (by omega)]
  · intro ht hlen
    simp only [Option.map_some']
    rw [update_chat_title_default c user_input (bot_reply_of outcome) ht]
    unfold derive_title
    rw [if_pos hlen]
  · intro ht
    simp only [Option.map_some']
    rw [update_chat_title_kept c user_input (bot_reply_of outcome) ht]

/-- Witness for C3 (amended): sending "Hello" to a fresh chat titles it
"Hello". -/
theorem title_derivation_witness :
    (get_chat_by_id (send (some { name := "u", email := "e" }) [{ id := "k1", title := "New Chat", messages := [] }] "k1" "Hello" (Except.error "x")).1 "k1").map Chat.title
      = some "Hello" :=
  (title_derivation { name := "u", email := "e" }
    [{ id := "k1", title := "New Chat", messages := [] }] "k1" "Hello" (Except.error "x")
    { id := "k1", title := "New Chat", messages := [] } rfl).1 rfl (by decide)
